import Mathlib

/-!
Verification of the Tenflix hybrid retrieval engine
(src/backend/app/vector_database.py and src/backend/app/rag_system.py)
against its natural-language specification.

The Python code is shallowly embedded: strings are Lean String values
(operated on through their character lists so every definition reduces in
the kernel), Python dictionaries with a fixed key set become structures
with Option fields (a missing key is none; Python truthiness is made
explicit at each use site exactly where the source tests it), exceptions
become the Except monad, and the external ChromaDB collection is a record
of effectful operations supplied as a parameter.  Distances are carried as
Int values: the code never inspects them, it only forwards them in order.
-/

namespace Tenflix

/-- Python exception kinds that appear in the translated code paths. -/
inductive PyErr where
  | valueError
  | typeError
  | indexError
  | keyError
  | other
deriving DecidableEq, Repr, Inhabited

/-- Python list indexing: raises IndexError when out of bounds. -/
def pyIndex {α : Type} (xs : List α) (i : Nat) : Except PyErr α :=
  match xs[i]? with
  | some v => Except.ok v
  | none => Except.error PyErr.indexError

/-- Python substring containment over character lists, used for the
operator in of the source. -/
def chInfix (a : List Char) : List Char → Bool
  | [] => a.isEmpty
  | c :: rest => a.isPrefixOf (c :: rest) || chInfix a rest

/-- Python operator a in b on strings: substring containment. -/
def pyIn (a b : String) : Bool := chInfix a.data b.data

/-- Character-level whitespace strip, both ends, matching str.strip()
for the ASCII whitespace that occurs in this system. -/
def chStrip (cs : List Char) : List Char :=
  ((cs.dropWhile Char.isWhitespace).reverse.dropWhile Char.isWhitespace).reverse

/-- Python str.strip(). -/
def pyStrip (s : String) : String := String.mk (chStrip s.data)

/-- Python str.lower() for the ASCII range handled by Char.toLower. -/
def pyLower (s : String) : String := String.mk (s.data.map Char.toLower)

/-- Splitting worker: walks the character list once; after a separator
match it skips the remaining matched characters using the counter, which
keeps the recursion structural so that the kernel can evaluate it. -/
def chSplitGo (sep : List Char) : List Char → List Char → Nat → List (List Char)
  | [], acc, _ => [acc.reverse]
  | _ :: rest, acc, Nat.succ skip => chSplitGo sep rest acc skip
  | c :: rest, acc, 0 =>
    if sep.isPrefixOf (c :: rest) then
      acc.reverse :: chSplitGo sep rest [] (sep.length - 1)
    else
      chSplitGo sep rest (c :: acc) 0

/-- Python str.split(sep) for a non-empty separator: splits on every
non-overlapping occurrence, left to right, keeping empty pieces.  The
source never calls split with an empty separator. -/
def pySplit (s sep : String) : List String :=
  if sep.data.isEmpty then [s]
  else (chSplitGo sep.data s.data [] 0).map String.mk

/-- Python str.join applied as sep.join(xs). -/
def pyJoin (sep : String) : List String → String
  | [] => ""
  | x :: rest => rest.foldl (fun a b => a ++ sep ++ b) x

/-- Value of a non-empty all-digit character list. -/
def digitsValGo : List Char → Nat → Option Nat
  | [], acc => some acc
  | c :: rest, acc =>
    if c.isDigit then digitsValGo rest (acc * 10 + (c.toNat - 48)) else none

/-- Digits-only numeral value; none when empty or a non-digit occurs. -/
def digitsVal (cs : List Char) : Option Nat :=
  if cs.isEmpty then none else digitsValGo cs 0

/-- Python int(s): surrounding whitespace is ignored, an optional single
sign is allowed, the remainder must be a non-empty digit string;
otherwise ValueError, modelled as none. -/
def pyInt (s : String) : Option Int :=
  match chStrip s.data with
  | [] => none
  | '+' :: rest => (digitsVal rest).map Int.ofNat
  | '-' :: rest => (digitsVal rest).map (fun n => -(n : Int))
  | cs => (digitsVal cs).map Int.ofNat

/-- Decimal digits of a natural number, fuel-based so it reduces. -/
def natToStrGo : Nat → Nat → List Char → List Char
  | 0, _, acc => acc
  | f + 1, n, acc =>
    let d := Char.ofNat (48 + n % 10)
    if n < 10 then d :: acc else natToStrGo f (n / 10) (d :: acc)

/-- Python str(n) for a natural number. -/
def natToStr (n : Nat) : String := String.mk (natToStrGo (n + 1) n [])

/-- Python str(i) for an integer. -/
def intToStr : Int → String
  | Int.ofNat n => natToStr n
  | Int.negSucc n => "-" ++ natToStr (n + 1)

/-! ## Data model

Documents and envelopes, following section 3 of the specification and the
metadata record built in populate_vector_db.  A missing or None string
field of a metadata dictionary is modelled as the empty string; the code
only ever tests such fields for truthiness, where None and the empty
string behave the same way. -/

/-- Document metadata record, the dictionaries stored in the collection. -/
structure Meta where
  title : String
  year : String
  media_type : String
  genres : String
  directors : String
  cast : String
deriving DecidableEq, Repr, Inhabited

/-- Result envelope of collection.query: parallel lists nested one level
(one inner list per query text; this code always sends one query text). -/
structure QueryResult where
  ids : List (List String)
  documents : List (List String)
  metadatas : List (List Meta)
  distances : List (List Int)
deriving DecidableEq, Repr, Inhabited

/-- Result envelope of collection.get: flat parallel lists. -/
structure GetResult where
  ids : List String
  metadatas : List Meta
deriving DecidableEq, Repr, Inhabited

/-- Compiled year filter: the dictionary stored under the year key by
_construct_vector_query, holding the bound strings when present. -/
structure YearFilter where
  gte : Option String
  lte : Option String
deriving DecidableEq, Repr, Inhabited

/-- Compiled metadata filter set built by _construct_vector_query: the
genres, directors and cast entries model dictionaries with a single
contains key holding the bar-joined value list; a none field is an
absent key. -/
structure MetaFilters where
  genres : Option String
  year : Option YearFilter
  directors : Option String
  cast : Option String
deriving DecidableEq, Repr, Inhabited

/-- Python truthiness of the compiled filter dictionary: non-empty means
at least one key present. -/
def mfNonempty (mf : MetaFilters) : Bool :=
  mf.genres.isSome || mf.year.isSome || mf.directors.isSome || mf.cast.isSome

/-- The external ChromaDB collection, the vector store capability: the
operations hybrid_search and query_similar invoke, each able to raise. -/
structure Collection where
  count : Except PyErr Nat
  getSample : Except PyErr GetResult
  query : String → Nat → Option MetaFilters → Except PyErr QueryResult

/-- The canonical flat empty envelope returned by query_similar on error. -/
def flatEmpty : QueryResult := ⟨[], [], [], []⟩

/-- The nested empty envelope returned by hybrid_search on error or when
filtering eliminates every candidate. -/
def nestedEmpty : QueryResult := ⟨[[]], [[]], [[]], [[]]⟩

/-! ## MovieVectorDB.hybrid_search, vector_database.py lines 226-338

The per-candidate include flag starts True, the genres check may clear it,
then the year block may clear it; an int conversion failure inside the
year block aborts that block leaving the flag as it stood (the except
clause does pass), which the threading argument of the functions below
reproduces exactly. -/

/-- Synonym list the source tests when the filter mentions sci-fi,
vector_database.py lines 269-270. -/
def sci_fi_terms : List String := ["sci-fi", "science fiction", "scifi", "sci fi"]

/-- Genres check of the filter loop, vector_database.py lines 261-280:
skipped unless both the genres filter key and the document genres field
are truthy; when the lowered filter value mentions sci-fi only the
synonym terms are tested, otherwise each bar-separated filter entry is
tested as a lowered substring of the lowered document field. -/
def genresPass (gf : Option String) (docGenres : String) : Bool :=
  match gf with
  | none => true
  | some v =>
    if docGenres = "" then true
    else
      let genres_lower := pyLower docGenres
      let filter_genres := pyLower v
      if pyIn "sci-fi" filter_genres then
        sci_fi_terms.any (fun term => pyIn term genres_lower)
      else
        (pySplit filter_genres "|").any
          (fun genre => pyIn (pyLower (pyStrip genre)) genres_lower)

/-- Lower-or-equal bound step of the year block, vector_database.py
lines 292-293: an unparseable bound string raises inside the block and
leaves the flag untouched. -/
def lteStep (yf : YearFilter) (y : Int) (inc : Bool) : Bool :=
  match yf.lte with
  | none => inc
  | some l =>
    if l = "" then inc
    else
      match pyInt l with
      | none => inc
      | some lv => inc && !(y > lv)

/-- Bound checks of the year block, vector_database.py lines 290-293:
the gte comparison runs first; a ValueError while converting the gte
bound skips the lte comparison as well. -/
def boundSteps (yf : YearFilter) (y : Int) (inc : Bool) : Bool :=
  match yf.gte with
  | none => lteStep yf y inc
  | some g =>
    if g = "" then lteStep yf y inc
    else
      match pyInt g with
      | none => inc
      | some gv => lteStep yf y (inc && !(y < gv))

/-- Year block of the filter loop, vector_database.py lines 282-295:
skipped unless the year filter dictionary and the document year field are
truthy; a year field containing a dash is parsed by its leading segment;
any conversion failure leaves the include flag unchanged. -/
def yearPass (yfOpt : Option YearFilter) (ystr : String) (inc : Bool) : Bool :=
  match yfOpt with
  | none => inc
  | some yf =>
    if (yf.gte.isSome || yf.lte.isSome) && ystr ≠ "" then
      let seg := if pyIn "-" ystr then (pySplit ystr "-").headD "" else ystr
      match pyInt seg with
      | none => inc
      | some y => boundSteps yf y inc
    else inc

/-- Full include flag for one candidate, vector_database.py lines 258-295.
Note that the directors and cast entries of the filter set are never
consulted here. -/
def includeDoc (mf : MetaFilters) (m : Meta) : Bool :=
  yearPass mf.year m.year (genresPass mf.genres m.genres)

/-- Index-collecting loop, vector_database.py lines 255-298: appends the
position of every candidate whose include flag survived. -/
def idxFilter (p : Meta → Bool) : List Meta → Nat → List Nat
  | [], _ => []
  | m :: ms, k =>
    if p m then k :: idxFilter p ms (k + 1) else idxFilter p ms (k + 1)

/-- List comprehension lst at i for i in indices, raising IndexError on a
bad position. -/
def pyGetEach {α : Type} (xs : List α) : List Nat → Except PyErr (List α)
  | [] => Except.ok []
  | i :: is =>
    match pyIndex xs i with
    | Except.error e => Except.error e
    | Except.ok v =>
      match pyGetEach xs is with
      | Except.error e => Except.error e
      | Except.ok vs => Except.ok (v :: vs)

/-- Filter-and-truncate branch of hybrid_search, vector_database.py lines
254-325: collects surviving indices, projects the four parallel lists
through them, truncates each to n_results, and returns the nested empty
envelope when nothing survived. -/
def hybridFilterBranch (mf : MetaFilters) (results : QueryResult)
    (ids0 : List String) (n_results : Nat) : Except PyErr QueryResult :=
  match pyIndex results.metadatas 0 with
  | Except.error e => Except.error e
  | Except.ok metas0 =>
    let filtered_indices := idxFilter (includeDoc mf) metas0 0
    if filtered_indices.isEmpty then Except.ok nestedEmpty
    else
      match pyGetEach ids0 filtered_indices with
      | Except.error e => Except.error e
      | Except.ok filtered_ids =>
        match pyIndex results.documents 0 with
        | Except.error e => Except.error e
        | Except.ok docs0 =>
          match pyGetEach docs0 filtered_indices with
          | Except.error e => Except.error e
          | Except.ok filtered_docs =>
            match pyGetEach metas0 filtered_indices with
            | Except.error e => Except.error e
            | Except.ok filtered_meta =>
              match pyIndex results.distances 0 with
              | Except.error e => Except.error e
              | Except.ok dists0 =>
                match pyGetEach dists0 filtered_indices with
                | Except.error e => Except.error e
                | Except.ok filtered_dist =>
                  Except.ok
                    ⟨[filtered_ids.take n_results],
                     [filtered_docs.take n_results],
                     [filtered_meta.take n_results],
                     [filtered_dist.take n_results]⟩

/-- No-filter tail of hybrid_search, vector_database.py lines 327-334:
logs the top candidates (indexing the nested metadata list, which can
raise) and returns the raw result untruncated. -/
def hybridNoFilter (results : QueryResult) (ids0 : List String) :
    Except PyErr QueryResult :=
  if ids0.isEmpty then Except.ok results
  else
    match pyIndex results.metadatas 0 with
    | Except.error e => Except.error e
    | Except.ok _ => Except.ok results

/-- Sample logging step of hybrid_search, vector_database.py lines
241-243: when the one-item sample has ids its first metadata record is
read for the log line, which can raise IndexError. -/
def sampleLogStep (sample : GetResult) : Except PyErr Unit :=
  if sample.ids.isEmpty then Except.ok ()
  else (pyIndex sample.metadatas 0).map (fun _ => ())

/-- Body of the try block of hybrid_search, vector_database.py lines
238-334: count and sample logging calls, the similarity query with a
three-fold over-fetch, then either the filter branch (when the filter
dictionary is truthy and candidates exist) or the raw return. -/
def hybridCore (c : Collection) (query_text : String)
    (metadata_filters : Option MetaFilters) (n_results : Nat) :
    Except PyErr QueryResult :=
  match c.count with
  | Except.error e => Except.error e
  | Except.ok _ =>
    match c.getSample with
    | Except.error e => Except.error e
    | Except.ok sample =>
      match sampleLogStep sample with
      | Except.error e => Except.error e
      | Except.ok _ =>
        match c.query query_text (n_results * 3) none with
        | Except.error e => Except.error e
        | Except.ok results =>
          match pyIndex results.ids 0 with
          | Except.error e => Except.error e
          | Except.ok ids0 =>
            match metadata_filters with
            | none => hybridNoFilter results ids0
            | some mf =>
              if mfNonempty mf && !ids0.isEmpty then
                hybridFilterBranch mf results ids0 n_results
              else hybridNoFilter results ids0

/-- MovieVectorDB.hybrid_search, vector_database.py lines 226-338: any
exception raised inside the body is caught and converted into the nested
empty envelope. -/
def hybrid_search (c : Collection) (query_text : String)
    (metadata_filters : Option MetaFilters) (n_results : Nat) : QueryResult :=
  match hybridCore c query_text metadata_filters n_results with
  | Except.ok r => r
  | Except.error _ => nestedEmpty

/-- MovieVectorDB.query_similar, vector_database.py lines 166-187: one
similarity query; any exception is caught and converted into the flat
empty envelope. -/
def query_similar (c : Collection) (query_text : String) (n_results : Nat)
    (filter_criteria : Option MetaFilters) : QueryResult :=
  match c.query query_text n_results filter_criteria with
  | Except.ok r => r
  | Except.error _ => flatEmpty

/-! ## MovieRAGSystem, rag_system.py

The intent dictionary produced by json.loads is modelled with optional
fields: a none field is a missing key.  The year_range entries are
JSON numbers or null, modelled as Option Int (the queries of this system
carry integer years); Python truthiness of an entry is being non-null and
non-zero. -/

/-- Filters sub-dictionary of a parsed intent, rag_system.py lines
126-133.  A none field is a missing key; a some with an empty list is a
present but falsy value. -/
structure IntentFilters where
  genres : Option (List String)
  year_range : Option (List (Option Int))
  actors : Option (List String)
  directors : Option (List String)
  similar_to : Option (List String)
  keywords : Option (List String)
deriving DecidableEq, Repr, Inhabited

/-- Filters dictionary with no keys. -/
def emptyFilters : IntentFilters := ⟨none, none, none, none, none, none⟩

/-- Intent dictionary as returned by json.loads, rag_system.py lines
123-135; each field may be a missing key. -/
structure PyIntent where
  itype : Option String
  filters : Option IntentFilters
  search_query : Option String
deriving DecidableEq, Repr, Inhabited

/-- Default intent substituted on any parse failure, rag_system.py lines
166-170. -/
def defaultIntent (query : String) : PyIntent :=
  ⟨some "search", some emptyFilters, some query⟩

/-- Fence stripping of _parse_user_intent, rag_system.py lines 150-156:
when the text mentions a json-tagged fence, the piece between that tag
and the next fence is taken; otherwise, when any fence occurs, the piece
between the first two fences is taken; the chosen piece is stripped. -/
def stripFence (t : String) : String :=
  if pyIn "```json" t then
    pyStrip ((pySplit ((pySplit t "```json").getD 1 "") "```").headD "")
  else if pyIn "```" t then
    pyStrip ((pySplit ((pySplit t "```").getD 1 "") "```").headD "")
  else t

/-- Truthiness of one year_range entry: non-null and non-zero. -/
def yrTruthy : Option Int → Bool
  | none => false
  | some v => v ≠ 0

/-- Try block of _parse_user_intent, rag_system.py lines 119-161: the
language call yields the raw content (or raises), the content is
stripped, fences are removed, json.loads runs (the external stdlib
parser is a parameter; none is a decode error), and the logging line
reads the type and filters keys, raising KeyError when either is
missing. -/
def parseIntentCore (llm : Except PyErr String)
    (jloads : String → Option PyIntent) (_query : String) :
    Except PyErr PyIntent :=
  match llm with
  | Except.error e => Except.error e
  | Except.ok content =>
    let intent_text := stripFence (pyStrip content)
    match jloads intent_text with
    | none => Except.error PyErr.valueError
    | some d =>
      match d.itype, d.filters with
      | some _, some _ => Except.ok d
      | _, _ => Except.error PyErr.keyError

/-- MovieRAGSystem._parse_user_intent, rag_system.py lines 115-170: never
raises; any failure is converted into the default intent carrying the
original query text. -/
def parse_user_intent (llm : Except PyErr String)
    (jloads : String → Option PyIntent) (query : String) : PyIntent :=
  match parseIntentCore llm jloads query with
  | Except.ok d => d
  | Except.error _ => defaultIntent query

/-- Compiled vector query: residual search text plus the optional filter
set, rag_system.py lines 205-208. -/
structure VectorQuery where
  query_text : String
  filters : Option MetaFilters
deriving DecidableEq, Repr, Inhabited

/-- Decidable equality on raised-or-returned values, for evaluating the
embedded code on concrete inputs. -/
instance exceptDecEq {ε α : Type} [DecidableEq ε] [DecidableEq α] :
    DecidableEq (Except ε α) := fun a b =>
  match a, b with
  | Except.ok x, Except.ok y =>
    if h : x = y then Decidable.isTrue (by rw [h])
    else Decidable.isFalse (by intro hc; cases hc; exact h rfl)
  | Except.error x, Except.error y =>
    if h : x = y then Decidable.isTrue (by rw [h])
    else Decidable.isFalse (by intro hc; cases hc; exact h rfl)
  | Except.ok _, Except.error _ => Decidable.isFalse (by intro hc; cases hc)
  | Except.error _, Except.ok _ => Decidable.isFalse (by intro hc; cases hc)

/-- Year branch of _construct_vector_query, rag_system.py lines 187-195:
with a truthy two-entry range both bounds are stringified; otherwise a
truthy first entry gives only the lower bound; otherwise the second entry
is consulted, which raises IndexError when the list has one entry. -/
def compileYearRange (yr : List (Option Int)) :
    Except PyErr (Option YearFilter) :=
  if yr.isEmpty then Except.ok none
  else if yr.length = 2 && yrTruthy (yr.headD none) && yrTruthy (yr.getD 1 none) then
    Except.ok (some ⟨ some (intToStr ((yr.headD none).getD 0)),
                      some (intToStr ((yr.getD 1 none).getD 0)) ⟩)
  else if yrTruthy (yr.headD none) then
    Except.ok (some ⟨some (intToStr ((yr.headD none).getD 0)), none⟩)
  else
    match yr[1]? with
    | none => Except.error PyErr.indexError
    | some e =>
      if yrTruthy e then Except.ok (some ⟨none, some (intToStr (e.getD 0))⟩)
      else Except.ok none

/-- MovieRAGSystem._construct_vector_query, rag_system.py lines 172-208:
a pure function of the intent dictionary; genre, director and actor
lists are bar-joined into contains entries, the year range is compiled
into bound strings, and the result is None when no filter key was
added. -/
def construct_vector_query (d : PyIntent) : Except PyErr VectorQuery :=
  let search_query := d.search_query.getD ""
  let intent_filters := d.filters.getD emptyFilters
  let genresF : Option String :=
    match intent_filters.genres with
    | some gs => if gs.isEmpty then none else some (pyJoin "|" gs)
    | none => none
  let directorsF : Option String :=
    match intent_filters.directors with
    | some ds => if ds.isEmpty then none else some (pyJoin "|" ds)
    | none => none
  let castF : Option String :=
    match intent_filters.actors with
    | some as_ => if as_.isEmpty then none else some (pyJoin "|" as_)
    | none => none
  match intent_filters.year_range with
  | none =>
    let mf : MetaFilters := ⟨genresF, none, directorsF, castF⟩
    Except.ok ⟨search_query, if mfNonempty mf then some mf else none⟩
  | some yr =>
    match compileYearRange yr with
    | Except.error e => Except.error e
    | Except.ok yearF =>
      let mf : MetaFilters := ⟨genresF, yearF, directorsF, castF⟩
      Except.ok ⟨search_query, if mfNonempty mf then some mf else none⟩

/-- Retrieval dispatch of answer_question, rag_system.py lines 224-237:
a truthy compiled filter set selects hybrid search, otherwise the pure
semantic query with exactly n results. -/
def answerRetrieve (c : Collection) (vq : VectorQuery) (n_results : Nat) :
    QueryResult :=
  match vq.filters with
  | some mf =>
    if mfNonempty mf then hybrid_search c vq.query_text (some mf) n_results
    else query_similar c vq.query_text n_results none
  | none => query_similar c vq.query_text n_results none

/-- Document extraction of answer_question, rag_system.py lines 240-245:
an empty outer list yields no documents, otherwise the first inner list
is taken (query envelopes are always nested in this model). -/
def extractDocs (r : QueryResult) : List String :=
  if r.documents.isEmpty then [] else r.documents.headD []

/-- Retrieval dispatch of get_recommendations, rag_system.py lines
286-296: same branching as answer_question but the requested count is
doubled to leave headroom for exclusion filtering. -/
def recRetrieve (c : Collection) (vq : VectorQuery) (n_results : Nat) :
    QueryResult :=
  match vq.filters with
  | some mf =>
    if mfNonempty mf then hybrid_search c vq.query_text (some mf) (n_results * 2)
    else query_similar c vq.query_text (n_results * 2) none
  | none => query_similar c vq.query_text (n_results * 2) none

/-- Envelope flattening of get_recommendations, rag_system.py lines
298-306: empty outer lists yield empty sequences, otherwise the first
inner lists are taken. -/
def recExtract (r : QueryResult) : List String × List Meta :=
  if r.documents.isEmpty || r.metadatas.isEmpty then ([], [])
  else (r.documents.headD [], r.metadatas.headD [])

/-- Exclusion filtering and truncation of get_recommendations,
rag_system.py lines 308-323: with a truthy exclusion list and truthy
metadata, entries whose title occurs in the exclusion list are dropped
while walking the zipped pair lists in order, and both survivor lists are
truncated to the requested count; otherwise plain truncation. -/
def recSelect (documents : List String) (metadatas : List Meta)
    (excluded_titles : Option (List String)) (n_results : Nat) :
    List String × List Meta :=
  match excluded_titles with
  | some ex =>
    if !ex.isEmpty && !metadatas.isEmpty then
      let pairs := documents.zip metadatas
      let kept := pairs.filter (fun p => !(ex.contains p.2.title))
      ((kept.map Prod.fst).take n_results, (kept.map Prod.snd).take n_results)
    else
      (documents.take n_results,
       if metadatas.isEmpty then [] else metadatas.take n_results)
  | none =>
    (documents.take n_results,
     if metadatas.isEmpty then [] else metadatas.take n_results)

/-! ## Candidate tuples and bridge lemmas

The source manipulates four parallel lists through a shared index list.
To state envelope properties we package the parallel lists into candidate
tuples and prove that the index-based extraction of the source equals
filtering the tuple list and projecting. -/

/-- One retrieved candidate: identifier, document text, metadata,
similarity distance. -/
structure Cand where
  cid : String
  cdoc : String
  cmeta : Meta
  cdist : Int
deriving DecidableEq, Repr, Inhabited

/-- Tupling of the four parallel candidate lists. -/
def zipCands : List String → List String → List Meta → List Int → List Cand
  | i :: is, d :: ds, m :: ms, t :: ts => ⟨i, d, m, t⟩ :: zipCands is ds ms ts
  | _, _, _, _ => []

/-- Candidates surviving the metadata filter pass, in original order. -/
def keptCands (mf : MetaFilters) (ids docs : List String) (ms : List Meta)
    (ds : List Int) : List Cand :=
  (zipCands ids docs ms ds).filter (fun cd => includeDoc mf cd.cmeta)

/-! ## Concrete fixtures

Small concrete documents, filters and collections used to evaluate the
embedded code on explicit inputs. -/

def mDrama : Meta := ⟨"Quiet Days", "2001", "movie", "Drama", "Jane Doe", "A Bee"⟩

def mComedy : Meta := ⟨"Loud Nights", "2003", "movie", "Comedy", "John Roe", "C Dee"⟩

def mSciFi : Meta := ⟨"Star Drift", "1999", "movie", "Science Fiction, Thriller", "K Lee", "D Eff"⟩

def mDramaComedy : Meta := ⟨"Mixed Bag", "2004", "movie", "Drama, Comedy", "L Moe", "E Gee"⟩

def mSpielberg : Meta := ⟨"Deep Waters", "2002", "movie", "Adventure", "Steven Spielberg", "F Aitch"⟩

def mSpy : Meta := ⟨"Echo", "2005", "movie", "", "", ""⟩

def mUnknownYear : Meta := ⟨"Lost Date", "unknown", "movie", "", "", ""⟩

def m1999 : Meta := ⟨"Y99", "1999", "movie", "", "", ""⟩

def m2000 : Meta := ⟨"Y00", "2000", "movie", "", "", ""⟩

def m2005 : Meta := ⟨"Y05", "2005", "movie", "", "", ""⟩

def m2012 : Meta := ⟨"Y12", "2012", "movie", "", "", ""⟩

def mRange1012 : Meta := ⟨"R1012", "2010-2012", "show", "", "", ""⟩

def mRange1215 : Meta := ⟨"R1215", "2012-2015", "show", "", "", ""⟩

def mfDrama : MetaFilters := ⟨some "drama", none, none, none⟩

def mfDirOnly : MetaFilters := ⟨none, none, some "christopher nolan", none⟩

def mfSci : MetaFilters := ⟨some "sci-fi", none, none, none⟩

def mfSciDrama : MetaFilters := ⟨some "sci-fi|drama", none, none, none⟩

def mfYear0010 : MetaFilters := ⟨none, some ⟨some "2000", some "2010"⟩, none, none⟩

/-- Collection whose similarity query always answers with one fixed
envelope and whose count and sample calls succeed trivially. -/
def collOf (r : QueryResult) : Collection :=
  ⟨Except.ok 0, Except.ok ⟨[], []⟩, fun _ _ _ => Except.ok r⟩

def cW1 : Collection := collOf ⟨[["i1", "i2"]], [["d1", "d2"]], [[mDrama, mComedy]], [[1, 2]]⟩

def cNol : Collection := collOf ⟨[["n1"]], [["ndoc"]], [[mSpielberg]], [[7]]⟩

def cUnk : Collection := collOf ⟨[["u1"]], [["udoc"]], [[mUnknownYear]], [[3]]⟩

def cZero : Collection := collOf nestedEmpty

/-- Collection whose similarity query always raises. -/
def cFail : Collection :=
  ⟨Except.ok 0, Except.ok ⟨[], []⟩, fun _ _ _ => Except.error PyErr.other⟩

/-- Envelope echoing the candidate count the store was asked for. -/
def spyResult (k : Nat) : QueryResult :=
  ⟨[[natToStr k]], [[natToStr k]], [[mSpy]], [[0]]⟩

/-- Collection echoing the requested candidate count back in its answer,
making the over-fetch size observable in the returned envelope. -/
def spyC : Collection :=
  ⟨Except.ok 0, Except.ok ⟨[], []⟩, fun _ k _ => Except.ok (spyResult k)⟩

def d5 : PyIntent :=
  ⟨some "search", some ⟨none, some [some 2000, some 2010], none, none, none, none⟩,
   some "movies"⟩

def d5lo : PyIntent :=
  ⟨some "search", some ⟨none, some [some 2000, none], none, none, none, none⟩,
   some "movies"⟩

def d5hi : PyIntent :=
  ⟨some "search", some ⟨none, some [none, some 2010], none, none, none, none⟩,
   some "movies"⟩

def dSci : PyIntent :=
  ⟨some "search", some ⟨some ["sci-fi"], none, none, none, none, none⟩, some "x"⟩

def d6 : PyIntent :=
  ⟨some "search", some ⟨some ["sci-fi", "drama"], none, none, none, none, none⟩,
   some "x"⟩

/-- A concrete stand-in for the external json.loads: accepts exactly one
JSON text and yields a full intent dictionary for it. -/
def jloadsW : String → Option PyIntent :=
  fun s => if s = "[1, 2]" then
    some ⟨some "search", some emptyFilters, some "space"⟩ else none

lemma pyIndex_of_drop {α : Type} (full : List α) (k : Nat) (a : α)
    (t : List α) (h : full.drop k = a :: t) : pyIndex full k = Except.ok a := by
  have h0 : full[k]? = some a := by
    have hg := List.getElem?_drop full k 0
    rw [h] at hg
    simpa using hg.symm
  unfold pyIndex
  rw [h0]

lemma drop_succ_of_drop {α : Type} (full : List α) (k : Nat) (a : α)
    (t : List α) (h : full.drop k = a :: t) : full.drop (k + 1) = t := by
  have h2 : full.drop (k + 1) = (full.drop k).drop 1 := by
    rw [List.drop_drop]
  rw [h2, h]
  rfl

lemma pyGetEach_idxFilter {α : Type} (p : Meta → Bool) (ms : List Meta) :
    ∀ (k : Nat) (full xs : List α), full.drop k = xs → xs.length = ms.length →
    pyGetEach full (idxFilter p ms k) =
      Except.ok (((xs.zip ms).filter (fun pr => p pr.2)).map Prod.fst) := by
  induction ms with
  | nil =>
    intro k full xs _ hl
    cases xs with
    | nil => simp [idxFilter, pyGetEach]
    | cons a t => simp at hl
  | cons m ms ih =>
    intro k full xs hd hl
    cases xs with
    | nil => simp at hl
    | cons a t =>
      have hlen : t.length = ms.length := by simpa using hl
      have hidx := pyIndex_of_drop full k a t hd
      have hdrop2 := drop_succ_of_drop full k a t hd
      have ihk := ih (k + 1) full t hdrop2 hlen
      by_cases hp : p m
      · simp [idxFilter, hp, pyGetEach, hidx, ihk]
      · simp [idxFilter, hp, pyGetEach, ihk]

lemma zip_filter_projections (p : Meta → Bool) (ids docs : List String)
    (ms : List Meta) (ds : List Int) :
    ids.length = ms.length → docs.length = ms.length → ds.length = ms.length →
    (((ids.zip ms).filter (fun pr => p pr.2)).map Prod.fst =
      ((zipCands ids docs ms ds).filter (fun cd => p cd.cmeta)).map Cand.cid) ∧
    (((docs.zip ms).filter (fun pr => p pr.2)).map Prod.fst =
      ((zipCands ids docs ms ds).filter (fun cd => p cd.cmeta)).map Cand.cdoc) ∧
    (((ms.zip ms).filter (fun pr => p pr.2)).map Prod.fst =
      ((zipCands ids docs ms ds).filter (fun cd => p cd.cmeta)).map Cand.cmeta) ∧
    (((ds.zip ms).filter (fun pr => p pr.2)).map Prod.fst =
      ((zipCands ids docs ms ds).filter (fun cd => p cd.cmeta)).map Cand.cdist) := by
  induction ms generalizing ids docs ds with
  | nil =>
    intro h1 h2 h3
    cases ids with
    | cons a t => simp at h1
    | nil =>
      cases docs with
      | cons a t => simp at h2
      | nil =>
        cases ds with
        | cons a t => simp at h3
        | nil => simp [zipCands]
  | cons m ms ih =>
    intro h1 h2 h3
    cases ids with
    | nil => simp at h1
    | cons i is =>
      cases docs with
      | nil => simp at h2
      | cons d dcs =>
        cases ds with
        | nil => simp at h3
        | cons t ts =>
          have h1v : is.length = ms.length := by simpa using h1
          have h2v : dcs.length = ms.length := by simpa using h2
          have h3v : ts.length = ms.length := by simpa using h3
          have ihv := ih is dcs ts h1v h2v h3v
          by_cases hp : p m
          · simp [zipCands, hp, ihv.1, ihv.2.1, ihv.2.2.1, ihv.2.2.2]
          · simp [zipCands, hp, ihv.1, ihv.2.1, ihv.2.2.1, ihv.2.2.2]

lemma mem_zipCands_meta (ids docs : List String) (ms : List Meta)
    (ds : List Int) (cd : Cand) :
    cd ∈ zipCands ids docs ms ds → cd.cmeta ∈ ms := by
  induction ids generalizing docs ms ds with
  | nil => intro h; simp [zipCands] at h
  | cons i is ih =>
    intro h
    cases docs with
    | nil => simp [zipCands] at h
    | cons d dcs =>
      cases ms with
      | nil => simp [zipCands] at h
      | cons m msr =>
        cases ds with
        | nil => simp [zipCands] at h
        | cons t ts =>
          simp only [zipCands, List.mem_cons] at h
          rcases h with h | h
          · subst h; simp
          · exact List.mem_cons_of_mem m (ih dcs msr ts h)

lemma idxFilter_nil_iff (p : Meta → Bool) (ms : List Meta) :
    ∀ (k : Nat), idxFilter p ms k = [] ↔ ∀ m ∈ ms, p m = false := by
  induction ms with
  | nil => intro k; simp [idxFilter]
  | cons m ms ih =>
    intro k
    by_cases hp : p m
    · simp [idxFilter, hp]
    · simp only [idxFilter, hp, if_neg, Bool.false_eq_true, ite_false]
      rw [ih (k + 1)]
      constructor
      · intro h a ha
        rcases List.mem_cons.mp ha with rfl | ha2
        · simpa using hp
        · exact h a ha2
      · intro h a ha
        exact h a (List.mem_cons_of_mem m ha)

lemma keptCands_nil_of_idxFilter (mf : MetaFilters) (ids docs : List String)
    (ms : List Meta) (ds : List Int)
    (h : idxFilter (includeDoc mf) ms 0 = []) :
    keptCands mf ids docs ms ds = [] := by
  have hall := (idxFilter_nil_iff (includeDoc mf) ms 0).mp h
  unfold keptCands
  rw [List.filter_eq_nil_iff]
  intro cd hcd
  have := hall cd.cmeta (mem_zipCands_meta ids docs ms ds cd hcd)
  simp [this]

lemma zipCands_projections_self (l : List Cand) :
    zipCands (l.map Cand.cid) (l.map Cand.cdoc) (l.map Cand.cmeta)
      (l.map Cand.cdist) = l := by
  induction l with
  | nil => simp [zipCands]
  | cons c cs ih => simp [zipCands, ih]

lemma hybridFilterBranch_eq (mf : MetaFilters) (ids0 docs0 : List String)
    (metas0 : List Meta) (dists0 : List Int) (n : Nat)
    (h1 : ids0.length = metas0.length) (h2 : docs0.length = metas0.length)
    (h3 : dists0.length = metas0.length) :
    hybridFilterBranch mf ⟨[ids0], [docs0], [metas0], [dists0]⟩ ids0 n =
      Except.ok
        ⟨[((keptCands mf ids0 docs0 metas0 dists0).map Cand.cid).take n],
         [((keptCands mf ids0 docs0 metas0 dists0).map Cand.cdoc).take n],
         [((keptCands mf ids0 docs0 metas0 dists0).map Cand.cmeta).take n],
         [((keptCands mf ids0 docs0 metas0 dists0).map Cand.cdist).take n]⟩ := by
  have hproj := zip_filter_projections (includeDoc mf) ids0 docs0 metas0 dists0 h1 h2 h3
  by_cases hemp : idxFilter (includeDoc mf) metas0 0 = []
  · have hk := keptCands_nil_of_idxFilter mf ids0 docs0 metas0 dists0 hemp
    simp [hybridFilterBranch, pyIndex, hemp, hk, nestedEmpty]
  · have hids := pyGetEach_idxFilter (includeDoc mf) metas0 0 ids0 ids0 rfl h1
    have hdocs := pyGetEach_idxFilter (includeDoc mf) metas0 0 docs0 docs0 rfl h2
    have hmeta := pyGetEach_idxFilter (includeDoc mf) metas0 0 metas0 metas0 rfl rfl
    have hdist := pyGetEach_idxFilter (includeDoc mf) metas0 0 dists0 dists0 rfl h3
    rw [hproj.1] at hids
    rw [hproj.2.1] at hdocs
    rw [hproj.2.2.1] at hmeta
    rw [hproj.2.2.2] at hdist
    simp [hybridFilterBranch, pyIndex, hemp, hids, hdocs, hmeta, hdist, keptCands]

lemma envelope_goal_of_nestedEmpty (mf : MetaFilters) (n : Nat)
    (ids0 docs0 : List String) (metas0 : List Meta) (dists0 : List Int)
    (r : QueryResult) (h : r = nestedEmpty) :
    ∃ rids rdocs rms rds,
      r = ⟨[rids], [rdocs], [rms], [rds]⟩ ∧
      (∀ m ∈ rms, includeDoc mf m = true) ∧
      rids.length ≤ n ∧ rdocs.length ≤ n ∧ rms.length ≤ n ∧ rds.length ≤ n ∧
      List.Sublist (zipCands rids rdocs rms rds)
        (zipCands ids0 docs0 metas0 dists0) := by
  subst h
  exact ⟨[], [], [], [], rfl, by simp, by simp, by simp, by simp, by simp,
    by simp [zipCands]⟩

/-- C1 (amended): with a truthy compiled filter set and a well-formed
store response, every document in the returned envelope passes the filter
check the code actually runs — the genres and year parts of the compiled
predicate, each enforced only when both the filter entry and the document
field are non-empty; the compiled directors and actors entries are not
consulted by the filter pass — the envelope length is at most the
requested count, and survivors keep the original candidate order. -/
theorem hybrid_filtered_envelope_spec
    (c : Collection) (q : String) (mf : MetaFilters) (n : Nat)
    (ids0 docs0 : List String) (metas0 : List Meta) (dists0 : List Int)
    (hq : c.query q (n * 3) none = Except.ok ⟨[ids0], [docs0], [metas0], [dists0]⟩)
    (h1 : ids0.length = metas0.length) (h2 : docs0.length = metas0.length)
    (h3 : dists0.length = metas0.length)
    (hmf : mfNonempty mf = true) :
    ∃ rids rdocs rms rds,
      hybrid_search c q (some mf) n = ⟨[rids], [rdocs], [rms], [rds]⟩ ∧
      (∀ m ∈ rms, includeDoc mf m = true) ∧
      rids.length ≤ n ∧ rdocs.length ≤ n ∧ rms.length ≤ n ∧ rds.length ≤ n ∧
      List.Sublist (zipCands rids rdocs rms rds)
        (zipCands ids0 docs0 metas0 dists0) := by
  rcases hcnt : c.count with e | cnt
  · exact envelope_goal_of_nestedEmpty mf n ids0 docs0 metas0 dists0 _
      (by simp [hybrid_search, hybridCore, hcnt])
  rcases hsamp : c.getSample with e | sample
  · exact envelope_goal_of_nestedEmpty mf n ids0 docs0 metas0 dists0 _
      (by simp [hybrid_search, hybridCore, hcnt, hsamp])
  rcases hsmp : sampleLogStep sample with e | mdum
  · exact envelope_goal_of_nestedEmpty mf n ids0 docs0 metas0 dists0 _
      (by simp [hybrid_search, hybridCore, hcnt, hsamp, hsmp])
  by_cases hids : ids0.isEmpty
  · have hidsnil : ids0 = [] := List.isEmpty_iff.mp hids
    have hm0 : metas0 = [] := by
      have := h1
      rw [hidsnil] at this
      exact List.length_eq_zero.mp this.symm
    have hd0 : docs0 = [] := by
      have := h2
      rw [hm0] at this
      exact List.length_eq_zero.mp this
    have hs0 : dists0 = [] := by
      have := h3
      rw [hm0] at this
      exact List.length_eq_zero.mp this
    have hres : hybrid_search c q (some mf) n = nestedEmpty := by
      simp [hybrid_search, hybridCore, hcnt, hsamp, hsmp, hq, pyIndex, hmf,
        hidsnil, hybridNoFilter, nestedEmpty, hm0, hd0, hs0]
    exact envelope_goal_of_nestedEmpty mf n ids0 docs0 metas0 dists0 _ hres
  · have hbr := hybridFilterBranch_eq mf ids0 docs0 metas0 dists0 n h1 h2 h3
    have hres : hybrid_search c q (some mf) n =
        ⟨[((keptCands mf ids0 docs0 metas0 dists0).map Cand.cid).take n],
         [((keptCands mf ids0 docs0 metas0 dists0).map Cand.cdoc).take n],
         [((keptCands mf ids0 docs0 metas0 dists0).map Cand.cmeta).take n],
         [((keptCands mf ids0 docs0 metas0 dists0).map Cand.cdist).take n]⟩ := by
      simp [hybrid_search, hybridCore, hcnt, hsamp, hsmp, hq, pyIndex, hmf,
        hids, hbr]
    refine ⟨_, _, _, _, hres, ?_, ?_, ?_, ?_, ?_, ?_⟩
    · intro m hm
      have hm2 : m ∈ (keptCands mf ids0 docs0 metas0 dists0).map Cand.cmeta :=
        List.take_subset n _ hm
      rcases List.mem_map.mp hm2 with ⟨cd, hcd, rfl⟩
      exact (List.mem_filter.mp hcd).2
    · simp
    · simp
    · simp
    · simp
    · rw [← List.map_take, ← List.map_take, ← List.map_take, ← List.map_take,
        zipCands_projections_self]
      exact ((keptCands mf ids0 docs0 metas0 dists0).take_sublist n).trans
        ((zipCands ids0 docs0 metas0 dists0).filter_sublist)

/-- C1 witness: a two-candidate store answer under a drama genre filter
with requested count one; the theorem instantiates to the concrete run. -/
theorem hybrid_filtered_envelope_spec_witness :
    ∃ rids rdocs rms rds,
      hybrid_search cW1 "drama movies" (some mfDrama) 1 =
        ⟨[rids], [rdocs], [rms], [rds]⟩ ∧
      (∀ m ∈ rms, includeDoc mfDrama m = true) ∧
      rids.length ≤ 1 ∧ rdocs.length ≤ 1 ∧ rms.length ≤ 1 ∧ rds.length ≤ 1 ∧
      List.Sublist (zipCands rids rdocs rms rds)
        (zipCands ["i1", "i2"] ["d1", "d2"] [mDrama, mComedy] [1, 2]) :=
  hybrid_filtered_envelope_spec cW1 "drama movies" mfDrama 1
    ["i1", "i2"] ["d1", "d2"] [mDrama, mComedy] [1, 2]
    rfl (by decide) (by decide) (by decide) (by decide)

/-- C1 counterexample: under a directors-only compiled filter set the
hybrid filter pass returns a document whose directors field does not
contain the requested name as a substring in any letter case, so the
returned envelope does not satisfy the directors part of the compiled
predicate. -/
theorem hybrid_directors_not_enforced_cex :
    hybrid_search cNol "thrillers" (some mfDirOnly) 5 =
      ⟨[["n1"]], [["ndoc"]], [[mSpielberg]], [[7]]⟩ ∧
    mfDirOnly.directors = some "christopher nolan" ∧
    pyIn (pyLower "christopher nolan") (pyLower mSpielberg.directors) = false := by
  decide

/-- C2 (amended): the hybrid branch consults the store only at three
times its target count, the recommendation flow passes twice the
requested count as the target (so its hybrid branch asks the store for
six times the requested count while its semantic branch asks for twice),
and a store echoing the requested size makes the counts observable. -/
theorem overfetch_factors_spec (n : Nat) (hn : 0 < n) :
    (∀ (c₁ c₂ : Collection) (q : String) (mfOpt : Option MetaFilters),
      c₁.count = c₂.count → c₁.getSample = c₂.getSample →
      c₁.query q (n * 3) none = c₂.query q (n * 3) none →
      hybrid_search c₁ q mfOpt n = hybrid_search c₂ q mfOpt n) ∧
    hybrid_search spyC "space opera" (some mfDirOnly) n = spyResult (n * 3) ∧
    recRetrieve spyC ⟨"space opera", some mfDirOnly⟩ n = spyResult (n * 2 * 3) ∧
    recRetrieve spyC ⟨"space opera", none⟩ n = spyResult (n * 2) := by
  obtain ⟨m, rfl⟩ : ∃ m, n = m + 1 := ⟨n - 1, (Nat.succ_pred_eq_of_pos hn).symm⟩
  refine ⟨?_, ?_, ?_, ?_⟩
  · intro c₁ c₂ q mfOpt hc hs hq
    simp only [hybrid_search, hybridCore]
    rw [hc, hs, hq]
  · simp [hybrid_search, hybridCore, spyC, spyResult, pyIndex, mfDirOnly,
      mfNonempty, hybridFilterBranch, idxFilter, includeDoc, genresPass,
      yearPass, pyGetEach, sampleLogStep, nestedEmpty]
  · simp only [recRetrieve]
    simp [recRetrieve, mfDirOnly, mfNonempty, hybrid_search, hybridCore, spyC,
      spyResult, pyIndex, hybridFilterBranch, idxFilter, includeDoc,
      genresPass, yearPass, pyGetEach, sampleLogStep, nestedEmpty,
      Nat.mul_assoc]
    omega
  · simp [recRetrieve, query_similar, spyC, spyResult]

/-- C2 witness: the over-fetch sizes evaluated at requested count five:
the general hybrid store request is fifteen, the recommendation hybrid
store request is thirty, the recommendation semantic request is ten. -/
theorem overfetch_factors_spec_witness :
    0 < 5 ∧
    hybrid_search spyC "space opera" (some mfDirOnly) 5 = spyResult 15 ∧
    recRetrieve spyC ⟨"space opera", some mfDirOnly⟩ 5 = spyResult 30 ∧
    recRetrieve spyC ⟨"space opera", none⟩ 5 = spyResult 10 :=
  ⟨by decide, (overfetch_factors_spec 5 (by decide)).2.1,
   (overfetch_factors_spec 5 (by decide)).2.2.1,
   (overfetch_factors_spec 5 (by decide)).2.2.2⟩

/-- C2 counterexample: with the echoing store, the recommendation flow
with requested count five and a truthy filter set receives an envelope
built from a thirty-candidate store request, not the ten-candidate
request the claimed factor of exactly two would produce. -/
theorem recommendation_overfetch_cex :
    recRetrieve spyC ⟨"space opera", some mfDirOnly⟩ 5 = spyResult 30 ∧
    recRetrieve spyC ⟨"space opera", some mfDirOnly⟩ 5 ≠ spyResult (5 * 2) := by
  decide

lemma hybrid_error_of_query_error (c : Collection) (q : String)
    (mfOpt : Option MetaFilters) (n : Nat) (e : PyErr)
    (hq : c.query q (n * 3) none = Except.error e) :
    hybrid_search c q mfOpt n = nestedEmpty := by
  rcases hcnt : c.count with e2 | cnt
  · simp [hybrid_search, hybridCore, hcnt]
  rcases hsamp : c.getSample with e2 | sample
  · simp [hybrid_search, hybridCore, hcnt, hsamp]
  rcases hsmp : sampleLogStep sample with e2 | u
  · simp [hybrid_search, hybridCore, hcnt, hsamp, hsmp]
  · simp [hybrid_search, hybridCore, hcnt, hsamp, hsmp, hq]

/-- C3 (amended): any store exception is caught by both retrieval
operations and neither lets it escape, but the two failure envelopes
differ in shape: the semantic operation returns the flat empty envelope
while the hybrid operation returns the nested empty envelope; after the
document-extraction step used by the answer flow both failure envelopes
and a zero-match nested envelope alike yield no documents. -/
theorem retrieval_failure_empty_spec (c : Collection) (q : String) (n : Nat)
    (fc mfOpt : Option MetaFilters) :
    (∀ e, c.query q n fc = Except.error e →
      query_similar c q n fc = flatEmpty ∧
      extractDocs (query_similar c q n fc) = []) ∧
    (∀ e, c.query q (n * 3) none = Except.error e →
      hybrid_search c q mfOpt n = nestedEmpty ∧
      extractDocs (hybrid_search c q mfOpt n) = []) ∧
    extractDocs flatEmpty = [] ∧ extractDocs nestedEmpty = [] := by
  refine ⟨?_, ?_, by decide, by decide⟩
  · intro e he
    have h1 : query_similar c q n fc = flatEmpty := by
      simp [query_similar, he]
    exact ⟨h1, by rw [h1]; decide⟩
  · intro e he
    have h1 := hybrid_error_of_query_error c q mfOpt n e he
    exact ⟨h1, by rw [h1]; decide⟩

/-- C3 witness: the spec instantiated on the always-raising store at
concrete arguments. -/
theorem retrieval_failure_empty_spec_witness :
    query_similar cFail "heist films" 5 none = flatEmpty ∧
    hybrid_search cFail "heist films" (some mfDrama) 5 = nestedEmpty :=
  ⟨((retrieval_failure_empty_spec cFail "heist films" 5 none
      (some mfDrama)).1 PyErr.other rfl).1,
   ((retrieval_failure_empty_spec cFail "heist films" 5 none
      (some mfDrama)).2.1 PyErr.other rfl).1⟩

/-- C3 counterexample: the semantic failure envelope is not the nested
envelope a zero-match similarity query produces, and it differs from the
hybrid failure envelope, so the claimed single canonical empty envelope
does not exist. -/
theorem failure_envelopes_differ_cex :
    query_similar cFail "heist films" 5 none = flatEmpty ∧
    hybrid_search cFail "heist films" (some mfDrama) 5 = nestedEmpty ∧
    query_similar cZero "heist films" 5 none = nestedEmpty ∧
    query_similar cFail "heist films" 5 none ≠
      hybrid_search cFail "heist films" (some mfDrama) 5 ∧
    query_similar cFail "heist films" 5 none ≠
      query_similar cZero "heist films" 5 none := by
  decide

/-- C4: the intent parser is total — a failing language call, a parse
failure of the (arbitrary, parameterised) json decoder, or a missing
type or filters key each yield the default intent carrying the original
query; a successful decode with both keys present is returned as is; and
a json-tagged fenced block is stripped down to the enclosed text before
the decoder sees it. -/
theorem parse_user_intent_total_spec (query : String)
    (llm : Except PyErr String) (jloads : String → Option PyIntent) :
    (∀ e, llm = Except.error e →
      parse_user_intent llm jloads query = defaultIntent query) ∧
    (∀ content, llm = Except.ok content →
      jloads (stripFence (pyStrip content)) = none →
      parse_user_intent llm jloads query = defaultIntent query) ∧
    (∀ content d, llm = Except.ok content →
      jloads (stripFence (pyStrip content)) = some d →
      (d.itype = none ∨ d.filters = none) →
      parse_user_intent llm jloads query = defaultIntent query) ∧
    (∀ content d t f, llm = Except.ok content →
      jloads (stripFence (pyStrip content)) = some d →
      d.itype = some t → d.filters = some f →
      parse_user_intent llm jloads query = d) ∧
    stripFence (pyStrip " ```json\n[1, 2]\n``` ") = "[1, 2]" := by
  refine ⟨?_, ?_, ?_, ?_, by decide⟩
  · intro e he
    simp [parse_user_intent, parseIntentCore, he]
  · intro content hc hj
    simp [parse_user_intent, parseIntentCore, hc, hj]
  · intro content d hc hj hmiss
    rcases hmiss with hmiss | hmiss
    · simp [parse_user_intent, parseIntentCore, hc, hj, hmiss]
    · rcases hi : d.itype with _ | t2 <;>
        simp [parse_user_intent, parseIntentCore, hc, hj, hmiss, hi]
  · intro content d t f hc hj ht hf
    simp [parse_user_intent, parseIntentCore, hc, hj, ht, hf]

/-- C4 witness: a failing call yields the default intent, and a fenced
valid JSON answer is unwrapped and decoded by the concrete decoder. -/
theorem parse_user_intent_total_spec_witness :
    parse_user_intent (Except.error PyErr.other) jloadsW "any query" =
      defaultIntent "any query" ∧
    parse_user_intent (Except.ok " ```json\n[1, 2]\n``` ") jloadsW "any query" =
      ⟨some "search", some emptyFilters, some "space"⟩ :=
  ⟨(parse_user_intent_total_spec "any query" (Except.error PyErr.other)
      jloadsW).1 PyErr.other rfl,
   (parse_user_intent_total_spec "any query"
      (Except.ok " ```json\n[1, 2]\n``` ") jloadsW).2.2.2.1
      " ```json\n[1, 2]\n``` " ⟨some "search", some emptyFilters, some "space"⟩
      "search" emptyFilters rfl (by decide) rfl rfl⟩

/-- C5: year-range filtering through compilation and the hybrid filter
pass uses inclusive bounds, each bound independently optional, and a
dashed document year is compared by its leading segment: between 2000
and 2010, year 1999 is excluded, 2005 and 2000 included, 2010-2012
included, 2012-2015 excluded; a lower-bound-only range keeps 2012 and
drops 1999; an upper-bound-only range keeps 2005 and drops 2012. -/
theorem year_range_inclusive_spec :
    construct_vector_query d5 = Except.ok ⟨"movies", some mfYear0010⟩ ∧
    includeDoc mfYear0010 m1999 = false ∧
    includeDoc mfYear0010 m2005 = true ∧
    includeDoc mfYear0010 m2000 = true ∧
    includeDoc mfYear0010 mRange1012 = true ∧
    includeDoc mfYear0010 mRange1215 = false ∧
    construct_vector_query d5lo =
      Except.ok ⟨"movies", some ⟨none, some ⟨some "2000", none⟩, none, none⟩⟩ ∧
    includeDoc ⟨none, some ⟨some "2000", none⟩, none, none⟩ m1999 = false ∧
    includeDoc ⟨none, some ⟨some "2000", none⟩, none, none⟩ m2012 = true ∧
    construct_vector_query d5hi =
      Except.ok ⟨"movies", some ⟨none, some ⟨none, some "2010"⟩, none, none⟩⟩ ∧
    includeDoc ⟨none, some ⟨none, some "2010"⟩, none, none⟩ m2012 = false ∧
    includeDoc ⟨none, some ⟨none, some "2010"⟩, none, none⟩ m2005 = true := by
  decide

/-- C6 (amended): genre filtering is case-insensitive substring
containment expanded through the sci-fi synonym table, but whenever the
joined filter value mentions sci-fi the code consults only the synonym
table and ignores every other requested genre; when sci-fi is absent the
entries are OR-joined; the single-genre sci-fi law of the claim holds. -/
theorem genre_synonym_spec :
    construct_vector_query dSci = Except.ok ⟨"x", some mfSci⟩ ∧
    includeDoc mfSci mSciFi = true ∧
    includeDoc mfSci mDramaComedy = false ∧
    construct_vector_query d6 = Except.ok ⟨"x", some mfSciDrama⟩ ∧
    includeDoc mfSciDrama mSciFi = true ∧
    includeDoc mfSciDrama mDrama = false ∧
    (∀ doc : String,
      genresPass (some "sci-fi|drama") doc =
        if doc = "" then true
        else sci_fi_terms.any (fun term => pyIn term (pyLower doc))) := by
  refine ⟨by decide, by decide, by decide, by decide, by decide, by decide, ?_⟩
  intro doc
  by_cases hd : doc = ""
  · simp [genresPass, hd]
  · have hsci : pyIn "sci-fi" (pyLower "sci-fi|drama") = true := by decide
    simp [genresPass, hd, hsci]

/-- C6 counterexample: with requested genres sci-fi and drama, the word
drama is a case-insensitive substring of the genre field Drama, so the
claimed OR-joined semantics would match, yet the filter pass rejects the
document (and a full hybrid run drops it), because the presence of
sci-fi in the joined filter makes the code test only sci-fi synonyms. -/
theorem genre_synonym_or_cex :
    construct_vector_query d6 = Except.ok ⟨"x", some mfSciDrama⟩ ∧
    pyIn (pyLower "drama") (pyLower mDrama.genres) = true ∧
    includeDoc mfSciDrama mDrama = false ∧
    hybrid_search (collOf ⟨[["g1"]], [["gdoc"]], [[mDrama]], [[4]]⟩)
      "drama films" (some mfSciDrama) 5 = nestedEmpty := by
  decide

lemma zip_map_fst_snd {α β : Type} (l : List (α × β)) :
    (l.map Prod.fst).zip (l.map Prod.snd) = l := by
  induction l with
  | nil => rfl
  | cons p ps ih => simp [ih]

/-- C7: with an exclusion list given, the recommendation selection drops
exactly the entries whose title occurs in the list, keeps survivors in
their original relative order, truncates to the requested count, and the
survivor count is the minimum of the requested count and the number of
non-excluded candidates, so a candidate beyond the truncation boundary
fills the seat of a removed entry. -/
theorem exclusion_filter_spec (documents : List String) (metadatas : List Meta)
    (ex : List String) (n : Nat)
    (hlen : documents.length = metadatas.length) (hex : ex ≠ []) :
    (recSelect documents metadatas (some ex) n).1 =
      (((documents.zip metadatas).filter
        (fun p => !(ex.contains p.2.title))).map Prod.fst).take n ∧
    (recSelect documents metadatas (some ex) n).2 =
      (((documents.zip metadatas).filter
        (fun p => !(ex.contains p.2.title))).map Prod.snd).take n ∧
    (∀ m ∈ (recSelect documents metadatas (some ex) n).2,
      ex.contains m.title = false) ∧
    List.Sublist
      ((recSelect documents metadatas (some ex) n).1.zip
        (recSelect documents metadatas (some ex) n).2)
      (documents.zip metadatas) ∧
    (recSelect documents metadatas (some ex) n).2.length =
      min n ((documents.zip metadatas).filter
        (fun p => !(ex.contains p.2.title))).length := by
  by_cases hmet : metadatas.isEmpty
  · have hm0 : metadatas = [] := List.isEmpty_iff.mp hmet
    have hd0 : documents = [] := by
      rw [hm0] at hlen
      exact List.length_eq_zero.mp hlen
    subst hm0
    subst hd0
    simp [recSelect]
  · have hsel : recSelect documents metadatas (some ex) n =
        ((((documents.zip metadatas).filter
          (fun p => !(ex.contains p.2.title))).map Prod.fst).take n,
         (((documents.zip metadatas).filter
          (fun p => !(ex.contains p.2.title))).map Prod.snd).take n) := by
      simp [recSelect, hex, hmet, List.map_take]
    rw [hsel]
    refine ⟨rfl, rfl, ?_, ?_, ?_⟩
    · intro m hm
      have hm2 := List.take_subset n _ hm
      rcases List.mem_map.mp hm2 with ⟨p, hp, rfl⟩
      have := (List.mem_filter.mp hp).2
      simpa using this
    · rw [← List.map_take, ← List.map_take, zip_map_fst_snd]
      exact (List.take_sublist n _).trans (List.filter_sublist _)
    · simp [List.length_take]

/-- C7 witness: excluding Inception from three candidates with requested
count two removes the first entry and the candidate beyond the boundary
takes its seat. -/
theorem exclusion_filter_spec_witness :
    (recSelect ["da", "db", "dc"]
        [⟨"Inception", "2010", "movie", "", "", ""⟩, mDrama, mComedy]
        (some ["Inception"]) 2).2 = [mDrama, mComedy] ∧
    (∀ m ∈ (recSelect ["da", "db", "dc"]
        [⟨"Inception", "2010", "movie", "", "", ""⟩, mDrama, mComedy]
        (some ["Inception"]) 2).2,
      ["Inception"].contains m.title = false) := by
  have h := exclusion_filter_spec ["da", "db", "dc"]
    [⟨"Inception", "2010", "movie", "", "", ""⟩, mDrama, mComedy]
    ["Inception"] 2 (by decide) (by decide)
  exact ⟨by rw [h.2.1]; decide, h.2.2.1⟩

/-- C8: filter compilation is a pure deterministic function, and a
filter set with no populated field compiles to the null filter set. -/
theorem construct_vector_query_pure_spec (d : PyIntent) (fl : IntentFilters)
    (hf : d.filters = some fl)
    (hg : fl.genres = none ∨ fl.genres = some [])
    (hy : fl.year_range = none ∨ fl.year_range = some [])
    (hdrs : fl.directors = none ∨ fl.directors = some [])
    (ha : fl.actors = none ∨ fl.actors = some [])
    (_hk : fl.keywords = none ∨ fl.keywords = some [])
    (_hst : fl.similar_to = none ∨ fl.similar_to = some []) :
    construct_vector_query d = construct_vector_query d ∧
    construct_vector_query d = Except.ok ⟨d.search_query.getD "", none⟩ := by
  refine ⟨rfl, ?_⟩
  rcases hg with hg | hg <;> rcases hy with hy | hy <;>
    rcases hdrs with hdrs | hdrs <;> rcases ha with ha | ha <;>
    simp [construct_vector_query, hf, hg, hy, hdrs, ha, compileYearRange,
      mfNonempty]

/-- C8 witness: the empty filters dictionary compiles to the null filter
set with the search text passed through. -/
theorem construct_vector_query_pure_spec_witness :
    construct_vector_query ⟨some "search", some emptyFilters, some "any"⟩ =
      Except.ok ⟨"any", none⟩ :=
  (construct_vector_query_pure_spec
    ⟨some "search", some emptyFilters, some "any"⟩ emptyFilters rfl
    (Or.inl rfl) (Or.inl rfl) (Or.inl rfl) (Or.inl rfl) (Or.inl rfl)
    (Or.inl rfl)).2

/-- C9: when only keywords or similar_to are populated, compilation
yields the null filter set, the answer flow dispatches to the pure
semantic query, and the keywords and similar_to values are invisible to
compilation, so they can never affect which documents are returned. -/
theorem keywords_similar_to_ignored_spec (c : Collection) (n : Nat)
    (d : PyIntent) (fl : IntentFilters)
    (hf : d.filters = some fl)
    (hg : fl.genres = none ∨ fl.genres = some [])
    (hy : fl.year_range = none ∨ fl.year_range = some [])
    (hdrs : fl.directors = none ∨ fl.directors = some [])
    (ha : fl.actors = none ∨ fl.actors = some []) :
    construct_vector_query d = Except.ok ⟨d.search_query.getD "", none⟩ ∧
    answerRetrieve c ⟨d.search_query.getD "", none⟩ n =
      query_similar c (d.search_query.getD "") n none ∧
    (∀ kw st kw2 st2 : Option (List String),
      construct_vector_query
        ⟨d.itype, some ⟨fl.genres, fl.year_range, fl.actors, fl.directors,
          st, kw⟩, d.search_query⟩ =
      construct_vector_query
        ⟨d.itype, some ⟨fl.genres, fl.year_range, fl.actors, fl.directors,
          st2, kw2⟩, d.search_query⟩) := by
  refine ⟨?_, rfl, ?_⟩
  · rcases hg with hg | hg <;> rcases hy with hy | hy <;>
      rcases hdrs with hdrs | hdrs <;> rcases ha with ha | ha <;>
      simp [construct_vector_query, hf, hg, hy, hdrs, ha, compileYearRange,
        mfNonempty]
  · intro kw st kw2 st2
    rfl

/-- C9 witness: an intent populating only keywords and similar_to takes
the semantic path with the null filter set. -/
theorem keywords_similar_to_ignored_spec_witness :
    construct_vector_query
      ⟨some "search",
       some ⟨none, none, none, none, some ["Inception"], some ["space"]⟩,
       some "spacey"⟩ = Except.ok ⟨"spacey", none⟩ ∧
    answerRetrieve cZero ⟨"spacey", none⟩ 5 =
      query_similar cZero "spacey" 5 none :=
  ⟨(keywords_similar_to_ignored_spec cZero 5
      ⟨some "search",
       some ⟨none, none, none, none, some ["Inception"], some ["space"]⟩,
       some "spacey"⟩
      ⟨none, none, none, none, some ["Inception"], some ["space"]⟩
      rfl (Or.inl rfl) (Or.inl rfl) (Or.inl rfl) (Or.inl rfl)).1,
   (keywords_similar_to_ignored_spec cZero 5
      ⟨some "search",
       some ⟨none, none, none, none, some ["Inception"], some ["space"]⟩,
       some "spacey"⟩
      ⟨none, none, none, none, some ["Inception"], some ["space"]⟩
      rfl (Or.inl rfl) (Or.inl rfl) (Or.inl rfl) (Or.inl rfl)).2.1⟩

/-- C10: a candidate whose year metadata is empty or whose leading
segment is not an integer passes the year filter untouched, and a hybrid
run with a year range keeps such a document in the result. -/
theorem unparseable_year_kept_spec (yf : YearFilter) (m : Meta)
    (hm : m.year = "" ∨
      pyInt (if pyIn "-" m.year then (pySplit m.year "-").headD "" else m.year)
        = none) :
    includeDoc ⟨none, some yf, none, none⟩ m = true ∧
    hybrid_search cUnk "anything" (some mfYear0010) 5 =
      ⟨[["u1"]], [["udoc"]], [[mUnknownYear]], [[3]]⟩ := by
  constructor
  · rcases hm with hm | hm
    · simp [includeDoc, genresPass, yearPass, hm]
    · have hm2 : pyInt (if pyIn "-" m.year = true then
          (pySplit m.year "-").head?.getD "" else m.year) = none := by
        simpa using hm
      simp [includeDoc, genresPass, yearPass, hm2]
  · decide

/-- C10 witness: the non-numeric year value unknown under a 2000-2010
range. -/
theorem unparseable_year_kept_spec_witness :
    includeDoc ⟨none, some ⟨some "2000", some "2010"⟩, none, none⟩
      mUnknownYear = true ∧
    hybrid_search cUnk "anything" (some mfYear0010) 5 =
      ⟨[["u1"]], [["udoc"]], [[mUnknownYear]], [[3]]⟩ :=
  unparseable_year_kept_spec ⟨some "2000", some "2010"⟩ mUnknownYear
    (Or.inr (by decide))

end Tenflix
